import Mathlib

/-!
Verification of the Assessment-and-Remediation Engine of the tutoring
application (`app.py`).  The Python routes are embedded as pure Lean
functions: the external completion service is an `Except String String`
input (error message or completion text), database writes are returned
explicitly in the result records, and Flask session keys become fields of
the results.
-/

namespace Tutorat

/-- Python `\s` on the ASCII range: space, tab, newline, carriage return,
vertical tab, form feed. -/
def isSpaceChar (c : Char) : Bool :=
  c = ' ' || c = '\t' || c = '\n' || c = '\x0d' || c = '\x0b' || c = '\x0c'

/-- Python `\d` on the ASCII range. -/
def isDigitChar (c : Char) : Bool :=
  '0' ≤ c && c ≤ '9'

/-- Numeric value of a digit character. -/
def digitVal (c : Char) : Nat :=
  c.toNat - '0'.toNat

/-- Case-insensitive prefix test: does `s` start with `needle`
(given in lowercase)?  Models `re.IGNORECASE` matching of a literal. -/
def startsWithCI : List Char → List Char → Bool
  | [], _ => true
  | _ :: _, [] => false
  | n :: ns, c :: cs => (c.toLower = n) && startsWithCI ns cs

/-- The alternation `(Note|Score)` of the extraction regexes, with
`re.IGNORECASE`: if `s` starts with one of the two labels, return the rest
of the input after the label. -/
def matchLabel (s : List Char) : Option (List Char) :=
  if startsWithCI ['n', 'o', 't', 'e'] s then some (s.drop 4)
  else if startsWithCI ['s', 'c', 'o', 'r', 'e'] s then some (s.drop 5)
  else none

/-- Greedy `\s*`: drop the maximal run of whitespace.  Since in both
regexes `\s*` is followed by a non-whitespace token (`:` or `\d`),
maximal munch is equivalent to the backtracking semantics of `re`. -/
def dropSpaces : List Char → List Char
  | [] => []
  | c :: cs => if isSpaceChar c then dropSpaces cs else c :: cs

/-- Continuation of the first-tier regex after the label:
`\s*:\s*(\d)/5`.  Returns the captured digit. -/
def matchTailSlash5 (s : List Char) : Option Nat :=
  match dropSpaces s with
  | ':' :: rest =>
    match dropSpaces rest with
    | d :: '/' :: '5' :: _ => if isDigitChar d then some (digitVal d) else none
    | _ => none
  | _ => none

/-- Continuation of the fallback regex after the label: `\s*:\s*(\d)`. -/
def matchTailBare (s : List Char) : Option Nat :=
  match dropSpaces s with
  | ':' :: rest =>
    match dropSpaces rest with
    | d :: _ => if isDigitChar d then some (digitVal d) else none
    | [] => none
  | _ => none

/-- `re.search` for a label-anchored pattern: scan left to right, at each
position try the label followed by the tail pattern; the first (leftmost)
position where the whole pattern matches wins. -/
def searchPat (tail : List Char → Option Nat) : List Char → Option Nat
  | [] => none
  | c :: cs =>
    match (match matchLabel (c :: cs) with
           | some rest => tail rest
           | none => none) with
    | some d => some d
    | none => searchPat tail cs

/-- `re.search(r"(Note|Score)\s*:\s*(\d)/5", s, re.IGNORECASE)`,
returning the captured digit. -/
def searchSlash5 (s : List Char) : Option Nat :=
  searchPat matchTailSlash5 s

/-- `re.search(r"(Note|Score)\s*:\s*(\d)", s, re.IGNORECASE)`,
returning the captured digit. -/
def searchBare (s : List Char) : Option Nat :=
  searchPat matchTailBare s

/-- The score-extraction block shared by `soumettre_reponse`,
`soumettre_sequentiel` and `soumettre_remediation`:
`etoiles = 0`; first try `(Note|Score)\s*:\s*(\d)/5` and use the digit
as is; otherwise fall back to `(Note|Score)\s*:\s*(\d)` and clamp with
`min(…, 5)`; otherwise keep `0`. -/
def extract_score (analyse : String) : Nat :=
  match searchSlash5 analyse.data with
  | some d => d
  | none =>
    match searchBare analyse.data with
    | some d => min d 5
    | none => 0

/-- Whether either extraction pattern matched: distinguishes the two
`print` branches of the source (a note was extracted vs
"Impossible d'extraire la note").  This flag exists only as a log line in
the code; it is not part of any returned or persisted value. -/
def extract_matched (analyse : String) : Bool :=
  (searchSlash5 analyse.data).isSome || (searchBare analyse.data).isSome

example : extract_score "Analyse :\nbla\nNote : 4/5\nCorrection" = 4 := by decide
example : extract_score "Score: 7/5" = 7 := by decide
example : extract_score "Score: 7" = 5 := by decide
example : extract_score "Note : 10/5" = 1 := by decide
example : extract_score "rien ici" = 0 := by decide
example : extract_score "NOTE:3/5" = 3 := by decide
example : extract_matched "Note : 0/5" = true := by decide
example : extract_matched "Erreur IA : timeout" = false := by decide

/-- A `RemediationSuggestion` row (fields used by the engine). -/
structure Suggestion where
  user_id : Nat
  theme : String
  lecon : String
  message : String
  exercice_suggere : String
  statut : String
  vue_par_eleve : Bool
  notif_envoyee : Bool
deriving DecidableEq, Repr

/-- A `StudentResponse` row (fields used by the engine). -/
structure StudentResponse where
  user_id : Nat
  exercice_id : Option Nat
  reponse_eleve : String
  analyse_ia : String
  etoiles : Nat
deriving DecidableEq, Repr

/-- The `RemediationSuggestion(...)` constructed by the two submission
routes when the score is below 3: `statut="en_attente"`, message
"Exercice de remédiation proposé automatiquement (note: X/5)." and the
generated content as `exercice_suggere` (boolean columns at their
database defaults). -/
def autoSuggestion (eleveId : Nat) (theme lecon : String) (etoiles : Nat)
    (content : String) : Suggestion :=
  { user_id := eleveId
    theme := theme
    lecon := lecon
    message := "Exercice de remédiation proposé automatiquement (note: "
      ++ toString etoiles ++ "/5)."
    exercice_suggere := content
    statut := "en_attente"
    vue_par_eleve := false
    notif_envoyee := false }

/-- The `analyse_ia` value after the grading call of `soumettre_reponse`
or `soumettre_sequentiel`: the completion text on success, the string
`"Erreur IA : <e>"` on an exception (the route continues either way). -/
def analyseOf (grading : Except String String) : String :=
  match grading with
  | Except.ok t => t
  | Except.error e => "Erreur IA : " ++ e

/-- Result of one submission route: what the route persists and the
session flag it sets, plus how many times the remediation-generation
completion call was issued. -/
structure SubmitOutcome where
  analyse_ia : String
  etoiles : Nat
  remediationCalls : Nat
  newSuggestions : List Suggestion
  remediationAccessGranted : Bool
  savedResponse : Option StudentResponse
deriving DecidableEq, Repr

/-- The `if etoiles < 3:` block of `soumettre_reponse`: one completion
call is issued; on success a pending suggestion is stored and
`session['remediation_access']` is set; on exception nothing is stored
(error only printed).  Returns (completion calls, suggestions stored,
whether the session access key was set). -/
def remediation_block_reponse (eleveId : Nat) (theme lecon : String)
    (etoiles : Nat) (remGen : Except String String) :
    Nat × List Suggestion × Bool :=
  if etoiles < 3 then
    match remGen with
    | Except.ok content => (1, [autoSuggestion eleveId theme lecon etoiles content], true)
    | Except.error _ => (1, [], false)
  else (0, [], false)

/-- The `if etoiles < 3:` block of `soumettre_sequentiel`: one completion
call is issued; on exception the error string
`"Erreur IA lors de la génération de la remédiation : <e>"` is used as
the generated content, and in both cases a pending suggestion is stored.
No session access key is set on this route. -/
def remediation_block_sequentiel (eleveId : Nat) (theme lecon : String)
    (etoiles : Nat) (remGen : Except String String) :
    Nat × List Suggestion :=
  if etoiles < 3 then
    let content :=
      match remGen with
      | Except.ok c => c
      | Except.error e => "Erreur IA lors de la génération de la remédiation : " ++ e
    (1, [autoSuggestion eleveId theme lecon etoiles content])
  else (0, [])

/-- The `/soumettre-reponse` route after input validation: grade (the
completion outcome is `grading`), extract the score, run the remediation
block when `etoiles < 3`, then persist the `StudentResponse` and render
the feedback. -/
def soumettre_reponse_core (eleveId exoId : Nat) (theme lecon rep : String)
    (grading remGen : Except String String) : SubmitOutcome :=
  let analyse := analyseOf grading
  let etoiles := extract_score analyse
  let rb := remediation_block_reponse eleveId theme lecon etoiles remGen
  { analyse_ia := analyse
    etoiles := etoiles
    remediationCalls := rb.1
    newSuggestions := rb.2.1
    remediationAccessGranted := rb.2.2
    savedResponse := some
      { user_id := eleveId, exercice_id := some exoId, reponse_eleve := rep
        analyse_ia := analyse, etoiles := etoiles } }

/-- The `action == "submit"` branch of `/soumettre-sequentiel`: grade,
extract the score, persist the `StudentResponse` first, then run the
remediation block when `etoiles < 3`, and render the feedback. -/
def soumettre_sequentiel_core (eleveId exoId : Nat) (theme lecon rep : String)
    (grading remGen : Except String String) : SubmitOutcome :=
  let analyse := analyseOf grading
  let etoiles := extract_score analyse
  let rb := remediation_block_sequentiel eleveId theme lecon etoiles remGen
  { analyse_ia := analyse
    etoiles := etoiles
    remediationCalls := rb.1
    newSuggestions := rb.2
    remediationAccessGranted := false
    savedResponse := some
      { user_id := eleveId, exercice_id := some exoId, reponse_eleve := rep
        analyse_ia := analyse, etoiles := etoiles } }

/-- The `/soumettre-remediation/<id>` route after input validation: on a
grading-service exception return the 500 error page (no write); on
success extract the score, set the suggestion's `statut` to "reussie"
when `etoiles >= 3` and back to "en_attente" otherwise — regardless of
the current `statut` — and persist a `StudentResponse` with
`exercice_id=None`. -/
def soumettre_remediation_core (remediation : Suggestion) (rep : String)
    (grading : Except String String) :
    Except String (Suggestion × StudentResponse) :=
  match grading with
  | Except.error e => Except.error ("Erreur IA : " ++ e)
  | Except.ok analyse =>
    let etoiles := extract_score analyse
    let statut := if 3 ≤ etoiles then "reussie" else "en_attente"
    Except.ok
      ({ remediation with statut := statut },
       { user_id := remediation.user_id, exercice_id := none
         reponse_eleve := rep, analyse_ia := analyse, etoiles := etoiles })

/-- The POST branch of `/enseignant/valider-remediation/<id>`: rebuild
the exercise block from the form fields, overwrite `message` and
`exercice_suggere`, and set `statut = "valide"` unconditionally (the
current status is never inspected). -/
def valider_remediation_post (s : Suggestion)
    (lang message question reponse explication : String) : Suggestion :=
  let bloc :=
    if lang = "en" then
      "Remediation:\n- Question: " ++ question
        ++ "\n- Expected answer: " ++ reponse
        ++ "\n- Explanation: " ++ explication
    else
      "Remédiation :\n- Question : " ++ question
        ++ "\n- Réponse attendue : " ++ reponse
        ++ "\n- Explication : " ++ explication
  { s with message := message, exercice_suggere := bloc, statut := "valide" }

/-- The access check at the top of `/enseignant-virtuel`
(`if eleve.essai_est_expire() and eleve.statut_paiement != "paye":`
clear the session and redirect).  The route never reads
`session['remediation_access']`; the parameter is carried to record that
the decision ignores it. -/
def enseignant_virtuel_access (essai_expire : Bool) (statut_paiement : String)
    (remediation_access : Bool) : Bool :=
  !(essai_expire && statut_paiement != "paye")

example : enseignant_virtuel_access true "essai" true = false := by decide
example : enseignant_virtuel_access false "essai" false = true := by decide

/-- `get_message("bienvenue_enseignant", lang)`. -/
def bienvenueMsg (lang : String) : String :=
  if lang = "en" then
    "👋 Hello! I'm your virtual teacher. Ask me any question about any subject!"
  else
    "👋 Bonjour ! Je suis ton enseignant virtuel. Pose-moi n'importe quelle question sur n'importe quelle matière !"

/-- The tutor-side label of a transcript entry. -/
def enseignantLabel (lang : String) : String :=
  if lang = "en" then "🤖 Teacher:" else "🤖 Enseignant:"

/-- The student-side label of a transcript entry. -/
def eleveLabel (lang : String) : String :=
  if lang = "en" then "👤 Student:" else "👤 Élève:"

/-- The canned bilingual apology appended on a completion failure. -/
def fallbackMsg (lang : String) : String :=
  if lang = "fr" then
    "Je suis désolé, j'ai rencontré une erreur. Pourrais-tu reformuler ta question ?"
  else
    "I'm sorry, I encountered an error. Could you rephrase your question?"

/-- The POST branch of `/enseignant-virtuel`, restricted to the evolution
of `session["conversation"]` (the generated reply and the pinned
question do not feed back into the transcript within a turn).  When the
question has at least 3 characters: inject the welcome line into an empty
transcript, append the student's message, then
* on completion success append the tutor's reply and keep only the last
  15 entries (`conversation[-15:]`);
* on a completion exception append the canned apology — the source stores
  the transcript at this point without the 15-entry trim.
A question shorter than 3 characters leaves the transcript unchanged. -/
def enseignant_virtuel_post (conversation : List String) (lang question : String)
    (completion : Except String String) : List String :=
  if 3 ≤ question.length then
    let conv0 :=
      if conversation.isEmpty then [enseignantLabel lang ++ " " ++ bienvenueMsg lang]
      else conversation
    let conv1 := conv0 ++ [eleveLabel lang ++ " " ++ question]
    match completion with
    | Except.ok reponse =>
      let conv2 := conv1 ++ [enseignantLabel lang ++ " " ++ reponse]
      if 15 < conv2.length then conv2.drop (conv2.length - 15) else conv2
    | Except.error _ =>
      conv1 ++ [enseignantLabel lang ++ " " ++ fallbackMsg lang]
  else conversation

/-- Per-row update of `/eleve/remediations`: the query selects the rows
with this `user_id` and `statut == "valide"`; each selected row with
`vue_par_eleve` still false is set to true; nothing else is touched. -/
def markOne (eleveId : Nat) (r : Suggestion) : Suggestion :=
  if r.user_id == eleveId && r.statut == "valide" then
    if r.vue_par_eleve then r else { r with vue_par_eleve := true }
  else r

/-- The store after `/eleve/remediations` commits: every row of the store
passed through `markOne`. -/
def eleve_remediations_mark (store : List Suggestion) (eleveId : Nat) :
    List Suggestion :=
  store.map (markOne eleveId)

/-- The digit character for `d`. -/
def digitChar (d : Nat) : Char :=
  Char.ofNat (48 + d)

/-- A completion text whose score line is `Score: <d>/5`. -/
def scoreSlashText (d : Nat) : String :=
  "Score: " ++ String.mk [digitChar d] ++ "/5"

/-- A completion text whose score line is the bare `Score: <d>`. -/
def scoreBareText (d : Nat) : String :=
  "Score: " ++ String.mk [digitChar d]

/-- A completion text whose score line carries two digits:
`Note : <d1><d2>/5`. -/
def twoDigitText (d1 d2 : Nat) : String :=
  "Note : " ++ String.mk [digitChar d1, digitChar d2] ++ "/5"

/-- If neither extraction pattern matches, the extracted score stays at
its initialisation value `0`. -/
theorem extract_score_eq_zero_of_not_matched (s : String)
    (h : extract_matched s = false) : extract_score s = 0 := by
  have h1 : searchSlash5 s.data = none := by
    cases hx : searchSlash5 s.data with
    | none => rfl
    | some d => rw [extract_matched, hx] at h; simp at h
  have h2 : searchBare s.data = none := by
    cases hx : searchBare s.data with
    | none => rfl
    | some d => rw [extract_matched, hx] at h; simp at h
  simp [extract_score, h1, h2]

/-- C1: in both graded-submission routes (`soumettre_reponse` and
`soumettre_sequentiel`), the remediation-generation completion call is
issued exactly once when the extracted score is below 3 and never when
it is at least 3, synchronously within the request before the outcome is
returned. -/
theorem grading_threshold_triggers_remediation (eleveId exoId : Nat)
    (theme lecon rep : String) (grading remGen : Except String String) :
    (soumettre_reponse_core eleveId exoId theme lecon rep grading remGen).remediationCalls
        = (if extract_score (analyseOf grading) < 3 then 1 else 0)
    ∧ (soumettre_sequentiel_core eleveId exoId theme lecon rep grading remGen).remediationCalls
        = (if extract_score (analyseOf grading) < 3 then 1 else 0) := by
  constructor <;>
  · simp only [soumettre_reponse_core, soumettre_sequentiel_core,
      remediation_block_reponse, remediation_block_sequentiel]
    by_cases h : extract_score (analyseOf grading) < 3 <;>
      cases remGen <;> simp [h]

/-- C3, counterexample: on the first-tier `Label: d/5` pattern the digit
is used as is, so `Score: 7/5` extracts 7, not the clamped 5 that the
claim states. -/
theorem slash5_digit_not_clamped_cex :
    extract_score "Score: 7/5" = 7 ∧ extract_score "Score: 7/5" ≠ 5 := by
  decide

/-- C3, amended: for every digit d in `Score: d/5` the extractor returns
d unclamped (the first-tier match applies no clamp); the `min(…, 5)`
clamp applies only on the fallback pattern without `/5`. -/
theorem slash5_unclamped_fallback_clamped :
    ∀ d : Nat, d < 10 →
      extract_score (scoreSlashText d) = d
      ∧ extract_score (scoreBareText d) = min d 5 := by
  decide

/-- Witness for C3's amended theorem at d = 7. -/
theorem slash5_unclamped_fallback_clamped_witness :
    7 < 10 ∧ (extract_score (scoreSlashText 7) = 7
      ∧ extract_score (scoreBareText 7) = min 7 5) :=
  ⟨by decide, slash5_unclamped_fallback_clamped 7 (by decide)⟩

/-- C9: on a multi-digit score line `Note : d1 d2/5` the first-tier
`digit/5` pattern never matches, the fallback matches the first digit
only, and the result is the clamp of that first digit (so `Note : 10/5`
yields 1). -/
theorem multi_digit_reads_first_digit :
    ∀ d1 : Nat, d1 < 10 → ∀ d2 : Nat, d2 < 10 →
      searchSlash5 (twoDigitText d1 d2).data = none
      ∧ extract_score (twoDigitText d1 d2) = min d1 5 := by
  decide

/-- Witness for C9's theorem at `Note : 10/5`. -/
theorem multi_digit_reads_first_digit_witness :
    1 < 10 ∧ 0 < 10 ∧ (searchSlash5 (twoDigitText 1 0).data = none
      ∧ extract_score (twoDigitText 1 0) = min 1 5) :=
  ⟨by decide, by decide, multi_digit_reads_first_digit 1 (by decide) 0 (by decide)⟩

/-- C7, counterexample: an unparsed completion and a legitimate
`Note : 0/5` both extract to the same bare value 0 — the extraction
returns no distinct "unparsed" flag, so the two conditions are
conflated in everything the caller receives and persists. -/
theorem unparsed_conflated_with_zero_cex :
    extract_matched "aucun motif" = false
    ∧ extract_score "aucun motif" = 0
    ∧ extract_matched "Note : 0/5" = true
    ∧ extract_score "Note : 0/5" = 0
    ∧ extract_score "aucun motif" = extract_score "Note : 0/5" := by
  decide

/-- C7, amended: for every completion text with no recognizable pattern
the extractor returns 0, but no "unparsed" flag accompanies the value —
the unmatched branch differs only in a console log, and the returned
score equals the one extracted from a legitimate `Note : 0/5`. -/
theorem unparsed_returns_zero_no_flag (s : String)
    (h : extract_matched s = false) :
    extract_score s = 0 ∧ extract_score s = extract_score "Note : 0/5" := by
  have h0 := extract_score_eq_zero_of_not_matched s h
  exact ⟨h0, by rw [h0]; decide⟩

/-- Witness for C7's amended theorem at an unparsed text. -/
theorem unparsed_returns_zero_no_flag_witness :
    extract_matched "aucun motif" = false
    ∧ (extract_score "aucun motif" = 0
      ∧ extract_score "aucun motif" = extract_score "Note : 0/5") :=
  ⟨by decide, unparsed_returns_zero_no_flag "aucun motif" (by decide)⟩

/-- C2, counterexample: when the grading completion call fails,
`soumettre_reponse` still persists a `StudentResponse` whose analysis is
the error text and whose score is the defaulted 0, and it even invokes
remediation generation — no distinct grading-unavailable failure is
surfaced and the submission does not stay ungraded. -/
theorem grading_failure_persists_record_cex :
    (soumettre_reponse_core 1 1 "t" "l" "rep"
        (Except.error "timeout") (Except.error "down")).savedResponse
      = some { user_id := 1, exercice_id := some 1, reponse_eleve := "rep"
               analyse_ia := "Erreur IA : timeout", etoiles := 0 }
    ∧ (soumettre_reponse_core 1 1 "t" "l" "rep"
        (Except.error "timeout") (Except.error "down")).savedResponse ≠ none
    ∧ (soumettre_reponse_core 1 1 "t" "l" "rep"
        (Except.error "timeout") (Except.error "down")).remediationCalls = 1 := by
  decide

/-- C2, amended: on a grading completion failure `soumettre_reponse`
swallows the exception, stores `"Erreur IA : <e>"` as the analysis,
extracts the defaulted score 0 from it (whenever the error text contains
no score pattern), triggers remediation generation, and persists the
grading record — the caller is shown a normal grading, not a distinct
failure. -/
theorem grading_failure_persisted_with_error_text (eleveId exoId : Nat)
    (theme lecon rep e : String) (remGen : Except String String)
    (h : extract_matched ("Erreur IA : " ++ e) = false) :
    (soumettre_reponse_core eleveId exoId theme lecon rep (Except.error e) remGen).savedResponse
      = some { user_id := eleveId, exercice_id := some exoId, reponse_eleve := rep
               analyse_ia := "Erreur IA : " ++ e, etoiles := 0 }
    ∧ (soumettre_reponse_core eleveId exoId theme lecon rep (Except.error e) remGen).remediationCalls
      = 1 := by
  have h0 : extract_score ("Erreur IA : " ++ e) = 0 :=
    extract_score_eq_zero_of_not_matched _ h
  simp only [soumettre_reponse_core, remediation_block_reponse, analyseOf]
  cases remGen <;> simp [h0]

/-- Witness for C2's amended theorem at a "timeout" failure. -/
theorem grading_failure_persisted_with_error_text_witness :
    extract_matched ("Erreur IA : " ++ "timeout") = false
    ∧ ((soumettre_reponse_core 1 1 "t" "l" "rep"
          (Except.error "timeout") (Except.error "down")).savedResponse
        = some { user_id := 1, exercice_id := some 1, reponse_eleve := "rep"
                 analyse_ia := "Erreur IA : " ++ "timeout", etoiles := 0 }
      ∧ (soumettre_reponse_core 1 1 "t" "l" "rep"
          (Except.error "timeout") (Except.error "down")).remediationCalls = 1) :=
  ⟨by decide, grading_failure_persisted_with_error_text 1 1 "t" "l" "rep"
    "timeout" (Except.error "down") (by decide)⟩

/-- A `RemediationSuggestion` row in the terminal succeeded state. -/
def sReussie : Suggestion :=
  { user_id := 1, theme := "t", lecon := "l", message := "m"
    exercice_suggere := "ex", statut := "reussie"
    vue_par_eleve := false, notif_envoyee := false }

/-- C4, counterexample: a teacher validation applied to a suggestion in
state "reussie" is not rejected — it rewrites the record and sets its
status to "valide" — and a low-scoring resubmission against the same
record moves it back to "en_attente", reopening the terminal state. -/
theorem reussie_not_terminal_cex :
    sReussie.statut = "reussie"
    ∧ (valider_remediation_post sReussie "fr" "m2" "q" "r" "e").statut = "valide"
    ∧ valider_remediation_post sReussie "fr" "m2" "q" "r" "e" ≠ sReussie
    ∧ (soumettre_remediation_core sReussie "rep" (Except.ok "Note : 1/5")).toOption.map
        (fun p => p.1.statut) = some "en_attente" := by
  decide

/-- C4, amended: neither lifecycle operation inspects the current
status. Teacher validation unconditionally sets any suggestion — a
succeeded one included — to "valide" (rewriting its content), and a
graded resubmission against the same record unconditionally sets
"reussie" (score ≥ 3) or "en_attente" (score < 3); "reussie" is not
terminal and no transition is rejected as a conflict. -/
theorem lifecycle_ignores_current_status (s : Suggestion)
    (lang m q r ex rep text : String) :
    (valider_remediation_post s lang m q r ex).statut = "valide"
    ∧ (soumettre_remediation_core s rep (Except.ok text)).toOption.map
        (fun p => p.1.statut)
      = some (if 3 ≤ extract_score text then "reussie" else "en_attente") :=
  ⟨rfl, rfl⟩

/-- C5, counterexample: a `Note : 2/5` submission creates a pending
suggestion and sets the session remediation-access key, but the
guided-dialogue route ignores that key: with the trial expired and
payment status ≠ "paye" the access check still fails, so dialogue access
does not become true. -/
theorem remediation_grant_not_honored_cex :
    (soumettre_reponse_core 1 1 "t" "l" "rep"
        (Except.ok "Note : 2/5") (Except.ok "exo")).newSuggestions.map
      (fun s => s.statut) = ["en_attente"]
    ∧ (soumettre_reponse_core 1 1 "t" "l" "rep"
        (Except.ok "Note : 2/5") (Except.ok "exo")).remediationAccessGranted = true
    ∧ enseignant_virtuel_access true "essai" true = false := by
  decide

/-- C5, amended: a below-threshold submission does create a pending
("en_attente") suggestion and sets the session remediation-access flag,
but `/enseignant-virtuel` never reads that flag: any student with an
expired trial and a payment status other than "paye" is denied dialogue
access, so the remediation grant does not extend dialogue access past
trial expiry. -/
theorem low_score_creates_pending_but_gate_ignores_grant
    (eleveId exoId : Nat) (theme lecon rep content statutP : String)
    (remAccess : Bool) (h : statutP ≠ "paye") :
    (soumettre_reponse_core eleveId exoId theme lecon rep
        (Except.ok "Note : 2/5") (Except.ok content)).newSuggestions.map
      (fun s => s.statut) = ["en_attente"]
    ∧ (soumettre_reponse_core eleveId exoId theme lecon rep
        (Except.ok "Note : 2/5") (Except.ok content)).remediationAccessGranted = true
    ∧ enseignant_virtuel_access true statutP remAccess = false := by
  have h2 : extract_score (analyseOf (Except.ok "Note : 2/5")) = 2 := by decide
  refine ⟨?_, ?_, ?_⟩
  · simp [soumettre_reponse_core, remediation_block_reponse, h2, autoSuggestion]
  · simp [soumettre_reponse_core, remediation_block_reponse, h2]
  · simp [enseignant_virtuel_access, bne_iff_ne, h]

/-- Witness for C5's amended theorem: payment status "essai". -/
theorem low_score_creates_pending_but_gate_ignores_grant_witness :
    "essai" ≠ "paye"
    ∧ ((soumettre_reponse_core 1 1 "t" "l" "rep"
          (Except.ok "Note : 2/5") (Except.ok "exo")).newSuggestions.map
        (fun s => s.statut) = ["en_attente"]
      ∧ (soumettre_reponse_core 1 1 "t" "l" "rep"
          (Except.ok "Note : 2/5") (Except.ok "exo")).remediationAccessGranted = true
      ∧ enseignant_virtuel_access true "essai" true = false) :=
  ⟨by decide, low_score_creates_pending_but_gate_ignores_grant 1 1 "t" "l" "rep"
    "exo" "essai" true (by decide)⟩

/-- C6, counterexample: in the sequential route a remediation-generation
failure does not skip suggestion creation — a suggestion is persisted
whose exercise text is the error message. -/
theorem sequentiel_failure_creates_suggestion_cex :
    (soumettre_sequentiel_core 1 1 "t" "l" "rep"
        (Except.ok "Note : 2/5") (Except.error "boom")).newSuggestions
      = [autoSuggestion 1 "t" "l" 2
          "Erreur IA lors de la génération de la remédiation : boom"]
    ∧ (soumettre_sequentiel_core 1 1 "t" "l" "rep"
        (Except.ok "Note : 2/5") (Except.error "boom")).newSuggestions ≠ [] := by
  decide

/-- C6, amended: on a remediation-generation failure the grading result
is still returned in both routes, and in `soumettre_reponse` the failure
is only logged and no suggestion is created; but in
`soumettre_sequentiel` a suggestion IS created, carrying the error
message as its generated exercise text. -/
theorem remediation_failure_best_effort_divergent (eleveId exoId : Nat)
    (theme lecon rep e : String) (grading : Except String String)
    (h : extract_score (analyseOf grading) < 3) :
    (soumettre_reponse_core eleveId exoId theme lecon rep grading
        (Except.error e)).newSuggestions = []
    ∧ (soumettre_reponse_core eleveId exoId theme lecon rep grading
        (Except.error e)).savedResponse.isSome = true
    ∧ (soumettre_sequentiel_core eleveId exoId theme lecon rep grading
        (Except.error e)).newSuggestions
      = [autoSuggestion eleveId theme lecon (extract_score (analyseOf grading))
          ("Erreur IA lors de la génération de la remédiation : " ++ e)]
    ∧ (soumettre_sequentiel_core eleveId exoId theme lecon rep grading
        (Except.error e)).savedResponse.isSome = true := by
  refine ⟨?_, rfl, ?_, rfl⟩
  · simp [soumettre_reponse_core, remediation_block_reponse, h]
  · simp [soumettre_sequentiel_core, remediation_block_sequentiel, h]

/-- Witness for C6's amended theorem at a `Note : 2/5` grading and a
"boom" remediation failure. -/
theorem remediation_failure_best_effort_divergent_witness :
    extract_score (analyseOf (Except.ok "Note : 2/5")) < 3
    ∧ ((soumettre_reponse_core 1 1 "t" "l" "rep" (Except.ok "Note : 2/5")
          (Except.error "boom")).newSuggestions = []
      ∧ (soumettre_reponse_core 1 1 "t" "l" "rep" (Except.ok "Note : 2/5")
          (Except.error "boom")).savedResponse.isSome = true
      ∧ (soumettre_sequentiel_core 1 1 "t" "l" "rep" (Except.ok "Note : 2/5")
          (Except.error "boom")).newSuggestions
        = [autoSuggestion 1 "t" "l" (extract_score (analyseOf (Except.ok "Note : 2/5")))
            ("Erreur IA lors de la génération de la remédiation : " ++ "boom")]
      ∧ (soumettre_sequentiel_core 1 1 "t" "l" "rep" (Except.ok "Note : 2/5")
          (Except.error "boom")).savedResponse.isSome = true) :=
  ⟨by decide, remediation_failure_best_effort_divergent 1 1 "t" "l" "rep"
    "boom" (Except.ok "Note : 2/5") (by decide)⟩

/-- One successful dialogue turn with fixed texts, used to build a
reachable 15-entry transcript. -/
def demoTurn (c : List String) : List String :=
  enseignant_virtuel_post c "fr" "question" (Except.ok "reponse")

/-- The transcript after seven successful turns from an empty session:
3, 5, 7, 9, 11, 13 then 15 entries. -/
def demoConv : List String :=
  demoTurn (demoTurn (demoTurn (demoTurn (demoTurn (demoTurn (demoTurn []))))))

/-- C8, counterexample: from a reachable 15-entry transcript, a turn on
the completion-failure path appends the student message and the canned
apology without trimming, leaving 17 stored entries — the 15-entry cap
does not hold after a failure turn. -/
theorem failure_turn_exceeds_cap_cex :
    demoConv.length = 15
    ∧ (enseignant_virtuel_post demoConv "fr" "question"
        (Except.error "panne")).length = 17
    ∧ ¬ (enseignant_virtuel_post demoConv "fr" "question"
        (Except.error "panne")).length ≤ 15 := by
  decide

/-- The `conversation[-15:]` trim never leaves more than 15 entries. -/
theorem trimmed_le_15 (l : List String) :
    (if 15 < l.length then l.drop (l.length - 15) else l).length ≤ 15 := by
  split
  · simp only [List.length_drop]
    omega
  · omega

/-- C8, amended: after a successful dialogue turn the stored transcript
is trimmed to the last 15 entries (oldest evicted first) and never
exceeds 15; but on the completion-failure path the apology turn is
stored without trimming, so the transcript grows to two entries past its
previous length (three from empty) and can exceed 15. -/
theorem transcript_cap_success_only (conversation : List String)
    (lang question reponse e : String) (hq : 3 ≤ question.length) :
    (enseignant_virtuel_post conversation lang question (Except.ok reponse)).length ≤ 15
    ∧ (enseignant_virtuel_post conversation lang question (Except.error e)).length
      = (if conversation.isEmpty then 1 else conversation.length) + 2 := by
  constructor
  · simp only [enseignant_virtuel_post, hq, if_true]
    exact trimmed_le_15 _
  · simp only [enseignant_virtuel_post, hq, if_true]
    by_cases hc : conversation.isEmpty <;>
      simp [hc, List.length_append]

/-- Witness for C8's amended theorem on a one-entry transcript. -/
theorem transcript_cap_success_only_witness :
    3 ≤ "abc".length
    ∧ ((enseignant_virtuel_post ["a"] "fr" "abc" (Except.ok "rep")).length ≤ 15
      ∧ (enseignant_virtuel_post ["a"] "fr" "abc" (Except.error "err")).length
        = (if (["a"] : List String).isEmpty then 1 else (["a"] : List String).length) + 2) :=
  ⟨by decide, transcript_cap_success_only ["a"] "fr" "abc" "rep" "err" (by decide)⟩

/-- If a suggestion's seen flag is already true, re-setting it is the
identity on the record. -/
theorem set_vue_self (r : Suggestion) (h : r.vue_par_eleve = true) :
    ({ r with vue_par_eleve := true } : Suggestion) = r := by
  cases r
  simp_all

/-- C10: viewing `/eleve/remediations` maps the store row-for-row: every
row of that student with status "valide" comes out with
`vue_par_eleve = true` and all other fields unchanged, and every other
row (other student or other status) comes out identical. -/
theorem valide_marked_seen_frame (store : List Suggestion) (eleveId : Nat) :
    List.Forall₂ (fun r rNew =>
        (r.user_id = eleveId ∧ r.statut = "valide" →
          rNew = { r with vue_par_eleve := true })
        ∧ (¬ (r.user_id = eleveId ∧ r.statut = "valide") → rNew = r))
      store (eleve_remediations_mark store eleveId) := by
  unfold eleve_remediations_mark
  induction store with
  | nil => exact List.Forall₂.nil
  | cons r rs ih =>
    refine List.Forall₂.cons ⟨?_, ?_⟩ ih
    · intro hmatch
      have hb : (r.user_id == eleveId && r.statut == "valide") = true := by
        simp [hmatch.1, hmatch.2]
      by_cases hv : r.vue_par_eleve <;>
        simp [markOne, hb, hv, set_vue_self r]
    · intro hnot
      have hb : (r.user_id == eleveId && r.statut == "valide") = false := by
        rcases not_and_or.mp hnot with hne | hne <;> simp [hne]
      simp [markOne, hb]

end Tutorat
